import Mathlib

/-!
# pyNova serial driver — shallow embedding and verification

This file embeds `src/pyNova.py` (a driver for Ophir Nova laser power meters
speaking a `$CMD\r\n` / `*result\r\n` / `?ERROR\r\n` line protocol over RS-232)
and settles the specification claims against it.

Modelling choices:
* Python strings are `List Char` (`PyStr`); `str.replace`, slicing and `in`
  are embedded as executable list functions with Python's semantics.
* The Python object is embedded at the attribute level: the instance
  `__dict__` is an association list written by `__init__` and
  `simulate_device`, and attribute lookup falls back to the class dictionary.
  This is what makes the guard `if(self.simulate_device)` meaningful: the
  name resolves to the class's bound method, never to an instance field.
* The serial transport (external `pyserial`) is a script of responses plus an
  event trace; `random.random()` (external `random` module) is modelled as a
  stream of values `k / 2^53`, the exact form CPython returns; `float()`
  (external builtin) is modelled on decimal/scientific-notation strings.
* `raise` is `Except.error`; a `KeyError` from a dict subscript is a distinct
  error value.
-/

/-- Python strings, embedded as lists of characters. -/
abbrev PyStr := List Char

/-- Coerce a Lean string literal to the embedded Python string type. -/
def chars (s : String) : PyStr := s.data

/-- Exceptions raised by the embedded code: `raise Exception(msg)`, a dict
subscript `KeyError`, `float()`'s `ValueError`, and the `AttributeError` from
using `None` as a serial connection. -/
inductive PyErr where
  | exn (msg : PyStr)
  | keyError (key : PyStr)
  | valueError (msg : PyStr)
  | attributeError (msg : PyStr)
deriving DecidableEq, Repr

instance {ε α : Type} [DecidableEq ε] [DecidableEq α] : DecidableEq (Except ε α)
  | .ok a, .ok b =>
    if h : a = b then .isTrue (by rw [h]) else .isFalse (by intro hc; cases hc; exact h rfl)
  | .ok _, .error _ => .isFalse (by intro hc; cases hc)
  | .error _, .ok _ => .isFalse (by intro hc; cases hc)
  | .error e, .error f =>
    if h : e = f then .isTrue (by rw [h]) else .isFalse (by intro hc; cases hc; exact h rfl)

/-- Python's `str.replace(pat, repl)`: replace every occurrence of `pat`,
scanning left to right, non-overlapping.  Structural recursion on a fuel
argument so the definition reduces in the kernel; the fuel `s.length` is
always enough because each step consumes at least one character (when the
pattern is empty Python splices `repl` between characters; the driver only
ever replaces the non-empty pattern `"\r\n"`, and the fuel guard keeps the
function total regardless). -/
def pyReplaceAux : Nat → PyStr → PyStr → PyStr → PyStr
  | 0, s, _, _ => s
  | _ + 1, [], _, _ => []
  | n + 1, c :: t, pat, repl =>
    if pat.isPrefixOf (c :: t) then
      repl ++ pyReplaceAux n ((c :: t).drop pat.length) pat repl
    else
      c :: pyReplaceAux n t pat repl

/-- `s.replace(pat, repl)` on embedded Python strings. -/
def pyReplace (s pat repl : PyStr) : PyStr :=
  pyReplaceAux s.length s pat repl

/-- Python values that occur as attributes of a `NovaSerialDriver` object:
`None`, booleans, ints, strings, the class-level baud-rate dictionary, bound
methods, and foreign objects (the `pyserial` connection). -/
inductive PyVal where
  | vNone
  | vBool (b : Bool)
  | vInt (n : Int)
  | vStr (s : PyStr)
  | vDictSI (d : List (PyStr × Int))
  | vMethod (name : PyStr)
  | vObj (name : PyStr)
deriving DecidableEq, Repr

/-- Python truthiness (`bool(x)`) of the embedded values: `None` is falsy,
numbers are truthy iff nonzero, strings and dicts iff nonempty, and a bound
method or object is always truthy. -/
def truthy : PyVal → Bool
  | .vNone => false
  | .vBool b => b
  | .vInt n => n != 0
  | .vStr s => s != []
  | .vDictSI d => d != []
  | .vMethod _ => true
  | .vObj _ => true

/-- An instance `__dict__`: association list from attribute names to values;
assignment prepends, lookup takes the most recent binding. -/
abbrev Dict := List (PyStr × PyVal)

/-- `self.<k> = v`: write an instance attribute. -/
def setattr (d : Dict) (k : PyStr) (v : PyVal) : Dict := (k, v) :: d

/-- Python's `dict[key]` subscript on a string-valued dict: the value when the
key is present, `KeyError` otherwise. -/
def dictGetItem (d : List (PyStr × PyStr)) (k : PyStr) : Except PyErr PyStr :=
  match d.lookup k with
  | some v => .ok v
  | none => .error (.keyError k)

namespace NovaCommands

/-- `NovaCommands.FORCE_POWER` (src line 18). -/
def FORCE_POWER : PyStr := chars "FP"

/-- `NovaCommands.FORCE_ENERGY` (src line 19). -/
def FORCE_ENERGY : PyStr := chars "FE"

/-- `NovaCommands.GET_VERSION` (src line 20). -/
def GET_VERSION : PyStr := chars "VE"

/-- `NovaCommands.GET_HEAD_INFO` (src line 21). -/
def GET_HEAD_INFO : PyStr := chars "HI"

/-- `NovaCommands.GET_INSTRUMENT_INFO` (src line 22). -/
def GET_INSTRUMENT_INFO : PyStr := chars "II"

/-- `NovaCommands.GET_UNIT` (src line 23). -/
def GET_UNIT : PyStr := chars "SI"

/-- `NovaCommands.GET_POWER` (src line 24); `10` is the device timeout in
hundreds of milliseconds, embedded in the mnemonic. -/
def GET_POWER : PyStr := chars "SP 10"

/-- `NovaCommands.GET_ENERGY` (src line 25). -/
def GET_ENERGY : PyStr := chars "SE 10"

end NovaCommands

/-- The logical command identifiers of the protocol, one per `NovaCommands`
class constant. -/
inductive Command where
  | forcePower | forceEnergy | getVersion | getHeadInfo
  | getInstrumentInfo | getUnit | getPower | getEnergy
deriving DecidableEq, Repr

/-- The mnemonic each `Command` carries (the `NovaCommands` constants). -/
def Command.mnemonic : Command → PyStr
  | .forcePower => NovaCommands.FORCE_POWER
  | .forceEnergy => NovaCommands.FORCE_ENERGY
  | .getVersion => NovaCommands.GET_VERSION
  | .getHeadInfo => NovaCommands.GET_HEAD_INFO
  | .getInstrumentInfo => NovaCommands.GET_INSTRUMENT_INFO
  | .getUnit => NovaCommands.GET_UNIT
  | .getPower => NovaCommands.GET_POWER
  | .getEnergy => NovaCommands.GET_ENERGY

namespace NovaUnits

/-- `NovaUnits.UNIT_SETUP` (src line 29): unit code → written-out unit name. -/
def UNIT_SETUP : List (PyStr × PyStr) :=
  [ (chars "A", chars "Amps"),
    (chars "J", chars "Joules"),
    (chars "V", chars "Volts"),
    (chars "W", chars "Watts"),
    (chars "L", chars "Lux"),
    (chars "X", chars "No measurement yet"),
    (chars "Simulation", chars "Simulation") ]

end NovaUnits

namespace Error

/-- `Error.ERROR_MESSAGES` (src lines 32–37): device error token →
human-readable description. -/
def ERROR_MESSAGES : List (PyStr × PyStr) :=
  [ (chars "?PARAM ERROR", chars "bad operand."),
    (chars "?TIMEOUT: NO PULSE", chars "when the requested time period elapsed w/o pulse coming in"),
    (chars "?HEAD NOT MEASURING POWER", chars "head not measure power"),
    (chars "?NOT IN MAIN POWER SCREEN", chars "device is not in main screen"),
    (chars "?HEAD NOT CONNECTED", chars "head is not connected to device"),
    (chars "?UNKNOWN COMMAND", chars "unknown command") ]

end Error

/-- Numeric value of a digit string (`"123"` ↦ `123`); meaningful only when
every character is a digit. -/
def digitsVal (cs : PyStr) : Nat :=
  cs.foldl (fun a c => 10 * a + (c.toNat - 48)) 0

/-- `true` iff `cs` is a nonempty run of decimal digits. -/
def isDigits (cs : PyStr) : Bool :=
  (decide (cs ≠ [])) && cs.all Char.isDigit

/-- Split a string at the first character satisfying `p`: `none` when no such
character occurs, otherwise the parts before and after it. -/
def splitFirstBy (p : Char → Bool) : PyStr → Option (PyStr × PyStr)
  | [] => none
  | c :: t =>
    if p c then some ([], t)
    else (splitFirstBy p t).map (fun q => (c :: q.1, q.2))

/-- Consume an optional leading `+`/`-` sign: `(negative, rest)`. -/
def stripSign : PyStr → Bool × PyStr
  | '+' :: r => (false, r)
  | '-' :: r => (true, r)
  | r => (false, r)

/-- Decimal mantissa without sign or exponent: digits with at most one `.`,
at least one digit overall (`"1"`, `"1.23"`, `"1."`, `".5"`), valued in ℚ. -/
def parseUnsignedDec (cs : PyStr) : Option ℚ :=
  match splitFirstBy (fun c => c == '.') cs with
  | none => if isDigits cs then some (digitsVal cs : ℚ) else none
  | some (a, b) =>
    if a.all Char.isDigit && b.all Char.isDigit && !(a == [] && b == []) then
      some ((digitsVal (a ++ b) : ℚ) / (10 : ℚ) ^ b.length)
    else none

/-- Models the external Python builtin `float()` on plain decimal and
scientific-notation strings (`"12"`, `"1.23"`, `"1.23E+01"`, with optional
signs): `some` of the exact rational value, or `none` where `float()` raises
`ValueError`.  The driver applies it to device payloads such as `"1.23E+01"`. -/
def pyFloat (cs : PyStr) : Option ℚ :=
  let (neg, body) := stripSign cs
  match splitFirstBy (fun c => c == 'e' || c == 'E') body with
  | none => (parseUnsignedDec body).map (fun q => if neg then -q else q)
  | some (m, e) =>
    match parseUnsignedDec m with
    | none => none
    | some mq =>
      let (eneg, ed) := stripSign e
      if isDigits ed then
        let base : ℚ := if neg then -mq else mq
        let ev : ℚ := (10 : ℚ) ^ digitsVal ed
        some (if eneg then base / ev else base * ev)
      else none

/-- Models the external Python `random.random()`: CPython returns
`k / 2^53` for a 53-bit integer `k`, so every draw lies in `[0, 1)`.  The
session carries an index into an arbitrary such stream; `randomStream` maps a
raw stream value to the draw. -/
def randomStream (k : Nat) : ℚ :=
  ((k % 2 ^ 53 : Nat) : ℚ) / (2 : ℚ) ^ 53

namespace NovaSerialDriver

/-- `NovaSerialDriver.ERROR_CHAR` (src line 42). -/
def ERROR_CHAR : Char := '?'

/-- `NovaSerialDriver.COMMAND_CHAR` (src line 43). -/
def COMMAND_CHAR : Char := '$'

/-- `NovaSerialDriver.RESULT_CHAR` (src line 44). -/
def RESULT_CHAR : Char := '*'

/-- The class `__dict__` of `NovaSerialDriver`: the four class constants
(src lines 41–44) and one bound method per `def` of the class; the
double-underscore methods appear under their Python name-mangled keys.
Attribute lookup on an instance falls back to this dictionary. -/
def classDict : Dict :=
  [ (chars "BAUDRATES", .vDictSI
      [ (chars "300", 4), (chars "1200", 5), (chars "4800", 6),
        (chars "9600", 1), (chars "19200", 2) ]),
    (chars "ERROR_CHAR", .vStr [ERROR_CHAR]),
    (chars "COMMAND_CHAR", .vStr [COMMAND_CHAR]),
    (chars "RESULT_CHAR", .vStr [RESULT_CHAR]),
    (chars "__init__", .vMethod (chars "__init__")),
    (chars "_NovaSerialDriver__setup_connection", .vMethod (chars "_NovaSerialDriver__setup_connection")),
    (chars "open", .vMethod (chars "open")),
    (chars "close", .vMethod (chars "close")),
    (chars "simulate_device", .vMethod (chars "simulate_device")),
    (chars "_NovaSerialDriver__build_command_string", .vMethod (chars "_NovaSerialDriver__build_command_string")),
    (chars "_NovaSerialDriver__send_receive_data", .vMethod (chars "_NovaSerialDriver__send_receive_data")),
    (chars "_get_version", .vMethod (chars "_get_version")),
    (chars "_get_head_info", .vMethod (chars "_get_head_info")),
    (chars "_get_instrument_info", .vMethod (chars "_get_instrument_info")),
    (chars "_get_unit", .vMethod (chars "_get_unit")),
    (chars "_extract_received_data", .vMethod (chars "_extract_received_data")),
    (chars "_format_numeric_value", .vMethod (chars "_format_numeric_value")),
    (chars "get_infos", .vMethod (chars "get_infos")),
    (chars "get_power", .vMethod (chars "get_power")),
    (chars "serial_ports", .vMethod (chars "serial_ports")) ]

/-- Python attribute lookup `self.<k>`: the instance `__dict__` first, then
the class dictionary; `none` is an `AttributeError`. -/
def getattr (d : Dict) (k : PyStr) : Option PyVal :=
  match d.lookup k with
  | some v => some v
  | none => classDict.lookup k

/-- The instance `__dict__` produced by `__init__` (src lines 46–57): the
nine attribute assignments, most recent binding first.  `serial.PARITY_NONE`
is the pyserial constant `'N'`, `serial.STOPBITS_ONE` is `1`,
`serial.EIGHTBITS` is `8`.  Note the source's typo field `siumulation`. -/
def initAttrs (com_port : PyStr) (baudrate : Int) : Dict :=
  [ (chars "siumulation", .vBool false),
    (chars "data_bits", .vInt 8),
    (chars "stop_bit", .vInt 1),
    (chars "dtr_rts_lines", .vBool false),
    (chars "cts_line", .vBool true),
    (chars "parity", .vStr (chars "N")),
    (chars "baudrate", .vInt baudrate),
    (chars "com_port", .vStr com_port),
    (chars "connection", .vNone) ]

/-- Interactions with the external serial transport, for stating that an
operation did or did not touch it. -/
inductive TEvent where
  | acquire
  | release
  | write (frame : PyStr)
  | drain (data : PyStr)
deriving DecidableEq, Repr

/-- One driver session: the instance `__dict__`, the scripted transport (the
byte strings each successive drain will deliver, head first), the trace of
transport interactions, the position in the random stream together with the
stream itself, whether `serial.Serial` would succeed on this port, and a
ghost trace of the query operations invoked (it records control flow only and
feeds no computation). -/
structure Session where
  attrs : Dict
  script : List PyStr
  events : List TEvent
  randIx : Nat
  randVals : Nat → Nat
  portOk : Bool
  calls : List PyStr

/-- The session of a freshly constructed `NovaSerialDriver(com_port, baudrate)`
against a transport scripted to answer `script`, with random stream `rv`. -/
def initSession (com_port : PyStr) (baudrate : Int) (script : List PyStr)
    (rv : Nat → Nat) (portOk : Bool) : Session :=
  { attrs := initAttrs com_port baudrate, script := script, events := [],
    randIx := 0, randVals := rv, portOk := portOk, calls := [] }

end NovaSerialDriver

namespace NovaSerialDriver

/-- The guard expression `if(self.simulate_device)` used by `open`, `close`
and every query (src lines 78, 83, 107, 114, 121, 128, 157): Python
truthiness of the attribute named `simulate_device`.  The name always
resolves (the class defines a method of that name, so `getD` never takes its
default); what it resolves to is decided by `getattr`. -/
def simGuard (s : Session) : Bool :=
  truthy ((getattr s.attrs (chars "simulate_device")).getD .vNone)

/-- `simulate_device(self, simulation)` (src lines 86–88): writes the
instance attribute `simulation`. -/
def simulate_device (s : Session) (simulation : Bool) : Session :=
  { s with attrs := setattr s.attrs (chars "simulation") (.vBool simulation) }

/-- `__build_command_string(self, cmd)` (src lines 90–92):
`'{0}{1}\r\n'.format(self.COMMAND_CHAR, cmd)`. -/
def __build_command_string (cmd : PyStr) : PyStr :=
  [COMMAND_CHAR] ++ cmd ++ chars "\r\n"

/-- `_extract_received_data(self, data)` (src lines 133–140): if the result
marker occurs anywhere in `data`, return `data[1:]`; else if the error marker
occurs anywhere, return `Error.ERROR_MESSAGES[data]` (a `KeyError` when the
full string is not a table key); else raise. `self.RESULT_CHAR in data` is
containment of a one-character string, i.e. character membership. -/
def _extract_received_data (data : PyStr) : Except PyErr PyStr :=
  if data.contains RESULT_CHAR then
    .ok (data.drop 1)
  else if data.contains ERROR_CHAR then
    dictGetItem Error.ERROR_MESSAGES data
  else
    .error (.exn (chars "returned string has not the defined characters in it!"))

/-- `__send_receive_data(self, cmd)` (src lines 94–103): write the built
frame on the connection (an `AttributeError` when `self.connection` is still
`None`), sleep, drain every buffered byte into `result` (the script's next
entry; an empty buffer drains `''`), then return
`self._extract_received_data(result).replace('\r\n', '')`. -/
def __send_receive_data (s : Session) (cmd : PyStr) : Except PyErr (PyStr × Session) :=
  match getattr s.attrs (chars "connection") with
  | some .vNone =>
    .error (.attributeError (chars "NoneType object has no attribute write"))
  | none =>
    .error (.attributeError (chars "connection"))
  | some _ =>
    let frame := __build_command_string cmd
    let data := s.script.headD []
    let s' := { s with script := s.script.tail,
                       events := s.events ++ [.write frame, .drain data] }
    (_extract_received_data data).map (fun r => (pyReplace r (chars "\r\n") [], s'))

/-- `__setup_connection(self)` (src lines 59–74): acquire the serial port
with the configured settings and reset its buffers, or raise
`Exception('connection could not be established!')` when acquisition fails. -/
def __setup_connection (s : Session) : Except PyErr (Unit × Session) :=
  if s.portOk then
    .ok ((), { s with attrs := setattr s.attrs (chars "connection") (.vObj (chars "Serial")),
                      events := s.events ++ [.acquire] })
  else
    .error (.exn (chars "connection could not be established!"))

/-- `open(self)` (src lines 76–79); named `open_driver` because `open` is a
Lean keyword. -/
def open_driver (s : Session) : Except PyErr (Unit × Session) :=
  if !simGuard s then __setup_connection s else .ok ((), s)

/-- `close(self)` (src lines 81–84); named `close_driver` to match
`open_driver`.  In the non-simulated branch `self.connection.close()` is an
`AttributeError` when the connection is still `None`. -/
def close_driver (s : Session) : Except PyErr (Unit × Session) :=
  if !simGuard s then
    match getattr s.attrs (chars "connection") with
    | some .vNone =>
      .error (.attributeError (chars "NoneType object has no attribute close"))
    | none => .error (.attributeError (chars "connection"))
    | some _ => .ok ((), { s with events := s.events ++ [.release] })
  else .ok ((), s)

/-- Ghost bookkeeping: record that a query operation was entered.  It touches
only the `calls` trace, never the attributes, script, events or randomness. -/
def logCall (s : Session) (name : String) : Session :=
  { s with calls := s.calls ++ [chars name] }

/-- `_get_version(self)` (src lines 105–110). -/
def _get_version (s : Session) : Except PyErr (PyStr × Session) :=
  let s := logCall s "_get_version"
  if simGuard s then .ok (chars "Simulation", s)
  else __send_receive_data s NovaCommands.GET_VERSION

/-- `_get_head_info(self)` (src lines 112–117). -/
def _get_head_info (s : Session) : Except PyErr (PyStr × Session) :=
  let s := logCall s "_get_head_info"
  if simGuard s then .ok (chars "Simulation", s)
  else __send_receive_data s NovaCommands.GET_HEAD_INFO

/-- `_get_instrument_info(self)` (src lines 119–124). -/
def _get_instrument_info (s : Session) : Except PyErr (PyStr × Session) :=
  let s := logCall s "_get_instrument_info"
  if simGuard s then .ok (chars "Simulation", s)
  else __send_receive_data s NovaCommands.GET_INSTRUMENT_INFO

/-- `_get_unit(self)` (src lines 126–131). -/
def _get_unit (s : Session) : Except PyErr (PyStr × Session) :=
  let s := logCall s "_get_unit"
  if simGuard s then .ok (chars "Simulation", s)
  else __send_receive_data s NovaCommands.GET_UNIT

/-- `_format_numeric_value(self, value_string)` (src lines 142–144):
`float(value_string)`; a `ValueError` when the string is not numeric. -/
def _format_numeric_value (value_string : PyStr) : Except PyErr ℚ :=
  match pyFloat value_string with
  | some q => .ok q
  | none => .error (.valueError (chars "could not convert string to float"))

/-- `get_infos(self)` (src lines 146–153): fill the dictionary with the ROM
version, head info, instrument info, and `NovaUnits.UNIT_SETUP[self._get_unit()]`
in source order, and return it. -/
def get_infos (s : Session) : Except PyErr (List (PyStr × PyStr) × Session) := do
  let (v, s1) ← _get_version s
  let (h, s2) ← _get_head_info s1
  let (i, s3) ← _get_instrument_info s2
  let (u, s4) ← _get_unit s3
  let un ← dictGetItem NovaUnits.UNIT_SETUP u
  .ok ([ (chars "ROM Version", v), (chars "Head Info", h),
         (chars "Instrument Info", i), (chars "Unit", un) ], s4)

/-- `get_power(self)` (src lines 155–160): `random.random()` under the
simulation guard, otherwise send `GET_POWER` and parse the payload. -/
def get_power (s : Session) : Except PyErr (ℚ × Session) :=
  let s := logCall s "get_power"
  if simGuard s then
    .ok (randomStream (s.randVals s.randIx), { s with randIx := s.randIx + 1 })
  else do
    let (v, s') ← __send_receive_data s NovaCommands.GET_POWER
    let q ← _format_numeric_value v
    .ok (q, s')

/-- The receive-side pipeline at src line 103 applied to one drained byte
string: classify with `_extract_received_data`, then `.replace('\r\n', '')`
on a successful classification. -/
def receive_classify (data : PyStr) : Except PyErr PyStr :=
  (_extract_received_data data).map (fun r => pyReplace r (chars "\r\n") [])

/-- The sessions an API user can actually reach: a freshly constructed driver
(any port, baud rate, transport script, random stream, port condition),
closed under arbitrary `simulate_device(b)` calls. -/
inductive Reachable : Session → Prop where
  | init : ∀ com_port baudrate script rv portOk,
      Reachable (initSession com_port baudrate script rv portOk)
  | sim : ∀ s b, Reachable s → Reachable (simulate_device s b)

end NovaSerialDriver

namespace NovaSerialDriver

/-- `__init__` writes nine attributes, none of them named `simulate_device`. -/
theorem initAttrs_lookup_sim (com_port : PyStr) (baudrate : Int) :
    (initAttrs com_port baudrate).lookup (chars "simulate_device") = none := rfl

/-- No reachable instance `__dict__` contains a key `simulate_device`: the
constructor never writes it and `simulate_device(b)` writes `simulation`. -/
theorem reachable_lookup_sim {s : Session} (h : Reachable s) :
    s.attrs.lookup (chars "simulate_device") = none := by
  induction h with
  | init com_port baudrate script rv portOk => exact initAttrs_lookup_sim com_port baudrate
  | sim s b _ ih =>
    have hne : (chars "simulate_device" == chars "simulation") = false := by decide
    simp only [simulate_device, setattr, List.lookup, hne]
    exact ih

/-- On every reachable session, the attribute `simulate_device` resolves
through the class dictionary to the bound method of that name. -/
theorem reachable_getattr_sim {s : Session} (h : Reachable s) :
    getattr s.attrs (chars "simulate_device") = some (.vMethod (chars "simulate_device")) := by
  unfold getattr
  rw [reachable_lookup_sim h]
  rfl

/-- The guard `if(self.simulate_device)` is true on every reachable session:
it tests the truthiness of a bound method. -/
theorem reachable_simGuard {s : Session} (h : Reachable s) : simGuard s = true := by
  unfold simGuard
  rw [reachable_getattr_sim h]
  rfl

theorem _get_version_eq (s : Session) (hg : simGuard s = true) :
    _get_version s = .ok (chars "Simulation", logCall s "_get_version") := by
  have hg' : simGuard (logCall s "_get_version") = true := hg
  simp [_get_version, hg']

theorem _get_head_info_eq (s : Session) (hg : simGuard s = true) :
    _get_head_info s = .ok (chars "Simulation", logCall s "_get_head_info") := by
  have hg' : simGuard (logCall s "_get_head_info") = true := hg
  simp [_get_head_info, hg']

theorem _get_instrument_info_eq (s : Session) (hg : simGuard s = true) :
    _get_instrument_info s = .ok (chars "Simulation", logCall s "_get_instrument_info") := by
  have hg' : simGuard (logCall s "_get_instrument_info") = true := hg
  simp [_get_instrument_info, hg']

theorem _get_unit_eq (s : Session) (hg : simGuard s = true) :
    _get_unit s = .ok (chars "Simulation", logCall s "_get_unit") := by
  have hg' : simGuard (logCall s "_get_unit") = true := hg
  simp [_get_unit, hg']

theorem get_power_eq (s : Session) (hg : simGuard s = true) :
    get_power s = .ok (randomStream (s.randVals s.randIx),
      { s with calls := s.calls ++ [chars "get_power"], randIx := s.randIx + 1 }) := by
  have hg' : simGuard { s with calls := s.calls ++ [chars "get_power"] } = true := hg
  simp [get_power, logCall, hg']

theorem open_driver_eq (s : Session) (hg : simGuard s = true) :
    open_driver s = .ok ((), s) := by
  simp [open_driver, hg]

theorem close_driver_eq (s : Session) (hg : simGuard s = true) :
    close_driver s = .ok ((), s) := by
  simp [close_driver, hg]

theorem get_infos_eq (s : Session) (hg : simGuard s = true) :
    get_infos s = .ok
      ([ (chars "ROM Version", chars "Simulation"), (chars "Head Info", chars "Simulation"),
         (chars "Instrument Info", chars "Simulation"), (chars "Unit", chars "Simulation") ],
       { s with calls := s.calls ++ [chars "_get_version", chars "_get_head_info",
                                     chars "_get_instrument_info", chars "_get_unit"] }) := by
  have h1 := _get_version_eq s hg
  have h2 := _get_head_info_eq (logCall s "_get_version") hg
  have h3 := _get_instrument_info_eq (logCall (logCall s "_get_version") "_get_head_info") hg
  have h4 := _get_unit_eq (logCall (logCall (logCall s "_get_version") "_get_head_info")
    "_get_instrument_info") hg
  have h5 : dictGetItem NovaUnits.UNIT_SETUP (chars "Simulation") = .ok (chars "Simulation") := by
    decide
  simp only [get_infos, Bind.bind, Except.bind, h1, h2, h3, h4, h5]
  simp [logCall, List.append_assoc]

end NovaSerialDriver

theorem randomStream_nonneg (k : Nat) : 0 ≤ randomStream k := by
  unfold randomStream
  positivity

theorem randomStream_lt_one (k : Nat) : randomStream k < 1 := by
  unfold randomStream
  rw [div_lt_one (by positivity)]
  exact_mod_cast Nat.mod_lt k (by positivity)

theorem chars_crlf : chars "\r\n" = ['\r', '\n'] := rfl

theorem pyReplaceAux_nil (n : Nat) (pat repl : PyStr) : pyReplaceAux n [] pat repl = [] := by
  cases n <;> rfl

/-- Replacing `"\r\n"` by the empty string in `p ++ "\r\n"` gives back `p`
whenever `p` itself contains no `"\r\n"`: the scan finds exactly the trailing
occurrence. -/
theorem pyReplaceAux_strip :
    ∀ (n : Nat) (p : PyStr), p.length + 2 ≤ n → ¬(['\r', '\n'] <:+: p) →
      pyReplaceAux n (p ++ ['\r', '\n']) ['\r', '\n'] [] = p := by
  intro n
  induction n with
  | zero => intro p hlen hinf; omega
  | succ n ih =>
    intro p hlen hinf
    match p, hlen, hinf with
    | [], hlen, hinf =>
      simp only [List.nil_append]
      show (if (['\r', '\n'].isPrefixOf ['\r', '\n']) then
          [] ++ pyReplaceAux n (['\r', '\n'].drop (['\r', '\n'] : PyStr).length) ['\r', '\n'] []
        else '\r' :: pyReplaceAux n ['\n'] ['\r', '\n'] []) = []
      rw [if_pos (by decide)]
      simp [pyReplaceAux_nil]
    | c :: t, hlen, hinf =>
      have hpre : (['\r', '\n'].isPrefixOf (c :: (t ++ ['\r', '\n']))) = false := by
        match t with
        | [] => simp [List.isPrefixOf]
        | d :: t' =>
          simp only [List.cons_append, List.isPrefixOf, Bool.and_eq_false_iff]
          by_cases hc : c = '\r'
          · by_cases hd : d = '\n'
            · exfalso
              exact hinf ⟨[], t', by simp [hc, hd]⟩
            · right
              left
              exact beq_eq_false_iff_ne.mpr fun h => hd h.symm
          · left
            exact beq_eq_false_iff_ne.mpr fun h => hc h.symm
      show (if (['\r', '\n'].isPrefixOf (c :: (t ++ ['\r', '\n']))) then
          [] ++ pyReplaceAux n ((c :: (t ++ ['\r', '\n'])).drop (['\r', '\n'] : PyStr).length) ['\r', '\n'] []
        else c :: pyReplaceAux n (t ++ ['\r', '\n']) ['\r', '\n'] []) = c :: t
      rw [if_neg (by rw [hpre]; exact Bool.false_ne_true)]
      have ht : ¬(['\r', '\n'] <:+: t) := fun h => hinf (List.infix_cons_iff.mpr (Or.inr h))
      rw [ih t (by simpa using Nat.succ_le_succ_iff.mp (by simpa using hlen)) ht]

/-- `(p ++ "\r\n").replace("\r\n", "") = p` when `p` is CRLF-free. -/
theorem pyReplace_strip (p : PyStr) (h : ¬(['\r', '\n'] <:+: p)) :
    pyReplace (p ++ chars "\r\n") (chars "\r\n") [] = p := by
  have hlen : (p ++ chars "\r\n").length = p.length + 2 := by
    rw [chars_crlf]
    simp
  rw [pyReplace, hlen, chars_crlf]
  exact pyReplaceAux_strip (p.length + 2) p (le_refl _) h

open NovaSerialDriver

/-- **C4**: every `Command` value is encoded to exactly
`'$' ++ mnemonic ++ "\r\n"` — no extra whitespace, total and deterministic;
enumerated for all eight mnemonics (`FP`, `FE`, `VE`, `HI`, `II`, `SI`,
`"SP 10"`, `"SE 10"`). -/
theorem claim_C4_command_frames :
    (∀ c : Command, __build_command_string c.mnemonic
        = [COMMAND_CHAR] ++ c.mnemonic ++ chars "\r\n")
    ∧ __build_command_string NovaCommands.FORCE_POWER = chars "$FP\r\n"
    ∧ __build_command_string NovaCommands.FORCE_ENERGY = chars "$FE\r\n"
    ∧ __build_command_string NovaCommands.GET_VERSION = chars "$VE\r\n"
    ∧ __build_command_string NovaCommands.GET_HEAD_INFO = chars "$HI\r\n"
    ∧ __build_command_string NovaCommands.GET_INSTRUMENT_INFO = chars "$II\r\n"
    ∧ __build_command_string NovaCommands.GET_UNIT = chars "$SI\r\n"
    ∧ __build_command_string NovaCommands.GET_POWER = chars "$SP 10\r\n"
    ∧ __build_command_string NovaCommands.GET_ENERGY = chars "$SE 10\r\n" := by
  refine ⟨fun c => rfl, ?_, ?_, ?_, ?_, ?_, ?_, ?_, ?_⟩ <;> decide

/-- **C9**: bytes containing neither the result marker `'*'` nor the error
marker `'?'` are classified as a failure (the `raise` at src line 140), and
are never returned as a successful result. -/
theorem claim_C9_malformed_is_failure (s : PyStr)
    (h1 : RESULT_CHAR ∉ s) (h2 : ERROR_CHAR ∉ s) :
    _extract_received_data s
      = .error (.exn (chars "returned string has not the defined characters in it!"))
    ∧ ∀ r, _extract_received_data s ≠ .ok r := by
  constructor
  · simp [_extract_received_data, h1, h2]
  · intro r
    simp [_extract_received_data, h1, h2]

/-- Witness for C9 at the concrete input `"abc"`. -/
theorem claim_C9_witness :
    RESULT_CHAR ∉ chars "abc"
    ∧ ERROR_CHAR ∉ chars "abc"
    ∧ _extract_received_data (chars "abc")
        = .error (.exn (chars "returned string has not the defined characters in it!")) :=
  ⟨by decide, by decide,
    (claim_C9_malformed_is_failure (chars "abc") (by decide) (by decide)).1⟩

/-- **C10**: for bytes containing `'?'` but not `'*'`, an exact hit in
`Error.ERROR_MESSAGES` yields that entry's description, and a miss is the
distinct `KeyError` failure — never a default description, never a success. -/
theorem claim_C10_error_table_lookup (s : PyStr)
    (h1 : ERROR_CHAR ∈ s) (h2 : RESULT_CHAR ∉ s) :
    (∀ d, Error.ERROR_MESSAGES.lookup s = some d → _extract_received_data s = .ok d)
    ∧ (Error.ERROR_MESSAGES.lookup s = none →
        _extract_received_data s = .error (.keyError s)
        ∧ ∀ d, _extract_received_data s ≠ .ok d) := by
  refine ⟨fun d hd => ?_, fun hn => ⟨?_, fun d => ?_⟩⟩
  · simp [_extract_received_data, h1, h2, dictGetItem, hd]
  · simp [_extract_received_data, h1, h2, dictGetItem, hn]
  · simp [_extract_received_data, h1, h2, dictGetItem, hn]

/-- Witness for C10: the known token `"?PARAM ERROR"` maps to its
description, and the unknown token `"?NEW ERROR"` is a `KeyError`. -/
theorem claim_C10_witness :
    _extract_received_data (chars "?PARAM ERROR") = .ok (chars "bad operand.")
    ∧ _extract_received_data (chars "?NEW ERROR") = .error (.keyError (chars "?NEW ERROR")) :=
  ⟨(claim_C10_error_table_lookup (chars "?PARAM ERROR") (by decide) (by decide)).1
      (chars "bad operand.") (by decide),
   ((claim_C10_error_table_lookup (chars "?NEW ERROR") (by decide) (by decide)).2
      (by decide)).1⟩

/-- **C6 (counterexample)**: the claim says classification strips the marker
character itself wherever it occurs; on `"ab*c"` the code returns
`data[1:] = "b*c"` — it removed the leading `'a'`, not the marker, and the
marker is still present — whereas the claim predicts `"abc"`. -/
theorem claim_C6_counterexample :
    _extract_received_data (chars "ab*c") = .ok (chars "b*c")
    ∧ chars "b*c" ≠ chars "abc" := by
  decide

/-- **C6 (amended)**: for every byte string containing the result marker
anywhere, classification drops the *first character* — whatever it is — and
returns the rest; the dropped character is the marker exactly when the marker
is leading. -/
theorem claim_C6_drops_first_char :
    (∀ s : PyStr, RESULT_CHAR ∈ s → _extract_received_data s = .ok (s.drop 1))
    ∧ (∀ t : PyStr, _extract_received_data (RESULT_CHAR :: t) = .ok t) := by
  have hmain : ∀ s : PyStr, RESULT_CHAR ∈ s →
      _extract_received_data s = .ok (s.drop 1) := by
    intro s h
    simp [_extract_received_data, h]
  refine ⟨hmain, fun t => ?_⟩
  simpa using hmain (RESULT_CHAR :: t) (List.mem_cons_self RESULT_CHAR t)

/-- Witness for C6 (amended) at the concrete input `"ab*c"`. -/
theorem claim_C6_witness :
    RESULT_CHAR ∈ chars "ab*c"
    ∧ _extract_received_data (chars "ab*c") = .ok ((chars "ab*c").drop 1) :=
  ⟨by decide, claim_C6_drops_first_char.1 (chars "ab*c") (by decide)⟩

/-- **C5 (counterexample)**: the claim says only the *trailing* CRLF is
removed; line 103's `.replace('\r\n', '')` removes *every* occurrence.  On
the marker-prefixed input `"*a\r\nb\r\n"` the code yields `"ab"`, while the
claim predicts `"a\r\nb"` (leading marker stripped, trailing CRLF removed). -/
theorem claim_C5_counterexample :
    receive_classify (chars "*a\r\nb\r\n") = .ok (chars "ab")
    ∧ chars "ab" ≠ chars "a\r\nb" := by
  decide

/-- **C5 (amended)**: for every byte string beginning with the result marker,
classification returns the string with the leading marker dropped and *every*
occurrence of CRLF removed; the round-trip (classifying `'*' ++ p ++ "\r\n"`
returns `p` identically) holds for every payload `p` that contains no CRLF. -/
theorem claim_C5_strip_and_replace :
    (∀ t : PyStr, receive_classify (RESULT_CHAR :: t) = .ok (pyReplace t (chars "\r\n") []))
    ∧ (∀ p : PyStr, ¬(['\r', '\n'] <:+: p) →
        receive_classify (RESULT_CHAR :: (p ++ chars "\r\n")) = .ok p) := by
  have hmain : ∀ t : PyStr,
      receive_classify (RESULT_CHAR :: t) = .ok (pyReplace t (chars "\r\n") []) := by
    intro t
    have hc : RESULT_CHAR ∈ RESULT_CHAR :: t := List.mem_cons_self RESULT_CHAR t
    simp [receive_classify, _extract_received_data, hc, Except.map]
  refine ⟨hmain, fun p hp => ?_⟩
  rw [hmain (p ++ chars "\r\n"), pyReplace_strip p hp]

/-- Witness for C5 (amended): round-trip at the CRLF-free payload `"x"`. -/
theorem claim_C5_witness :
    ¬(['\r', '\n'] <:+: chars "x")
    ∧ receive_classify (RESULT_CHAR :: (chars "x" ++ chars "\r\n")) = .ok (chars "x") :=
  ⟨by decide, claim_C5_strip_and_replace.2 (chars "x") (by decide)⟩

/-- **C2**: on every reachable session — no matter what sequence of
`simulate_device(b)` toggles was applied — the attribute `simulate_device`
resolves to the bound method (the written `simulation`/`siumulation` fields
never shadow it), the guard is therefore true, every query takes the
simulation branch (`'Simulation'` for the four textual queries,
`random.random()` for power), and `open`/`close` return without touching the
serial transport. -/
theorem claim_C2_simulation_always_on (s : Session) (h : Reachable s) :
    s.attrs.lookup (chars "simulate_device") = none
    ∧ getattr s.attrs (chars "simulate_device") = some (.vMethod (chars "simulate_device"))
    ∧ simGuard s = true
    ∧ _get_version s = .ok (chars "Simulation", logCall s "_get_version")
    ∧ _get_head_info s = .ok (chars "Simulation", logCall s "_get_head_info")
    ∧ _get_instrument_info s = .ok (chars "Simulation", logCall s "_get_instrument_info")
    ∧ _get_unit s = .ok (chars "Simulation", logCall s "_get_unit")
    ∧ get_power s = .ok (randomStream (s.randVals s.randIx),
        { s with calls := s.calls ++ [chars "get_power"], randIx := s.randIx + 1 })
    ∧ open_driver s = .ok ((), s)
    ∧ close_driver s = .ok ((), s) := by
  have hg := reachable_simGuard h
  exact ⟨reachable_lookup_sim h, reachable_getattr_sim h, hg,
    _get_version_eq s hg, _get_head_info_eq s hg, _get_instrument_info_eq s hg,
    _get_unit_eq s hg, get_power_eq s hg, open_driver_eq s hg, close_driver_eq s hg⟩

/-- The session reached by constructing a driver and calling
`simulate_device(True)` then `simulate_device(False)`. -/
def c2Session : Session :=
  simulate_device (simulate_device (initSession (chars "COM1") 9600 [] (fun _ => 0) true) true)
    false

/-- Witness for C2: even after `simulate_device(False)`, the queries still
take the simulation branch. -/
theorem claim_C2_witness :
    Reachable c2Session
    ∧ _get_version c2Session = .ok (chars "Simulation", logCall c2Session "_get_version")
    ∧ get_power c2Session = .ok (randomStream (c2Session.randVals c2Session.randIx),
        { c2Session with calls := c2Session.calls ++ [chars "get_power"],
                          randIx := c2Session.randIx + 1 })
    ∧ open_driver c2Session = .ok ((), c2Session) := by
  have h : Reachable c2Session :=
    Reachable.sim _ false (Reachable.sim _ true (Reachable.init _ _ _ _ _))
  have main := claim_C2_simulation_always_on c2Session h
  exact ⟨h, main.2.2.2.1, main.2.2.2.2.2.2.2.1, main.2.2.2.2.2.2.2.2.1⟩

/-- **C7**: with simulation switched on (`simulate_device(True)`),
`getVersion` returns `"Simulation"`, `getPower` returns a value of the
random stream lying in `[0, 1)`, and `open`/`close` succeed returning the
session unchanged — no transport acquisition or release. -/
theorem claim_C7_simulation_mode (s : Session) (h : Reachable s) :
    _get_version (simulate_device s true)
      = .ok (chars "Simulation", logCall (simulate_device s true) "_get_version")
    ∧ get_power (simulate_device s true) = .ok
        (randomStream ((simulate_device s true).randVals (simulate_device s true).randIx),
         { simulate_device s true with
             calls := (simulate_device s true).calls ++ [chars "get_power"],
             randIx := (simulate_device s true).randIx + 1 })
    ∧ 0 ≤ randomStream ((simulate_device s true).randVals (simulate_device s true).randIx)
    ∧ randomStream ((simulate_device s true).randVals (simulate_device s true).randIx) < 1
    ∧ open_driver (simulate_device s true) = .ok ((), simulate_device s true)
    ∧ close_driver (simulate_device s true) = .ok ((), simulate_device s true) := by
  have hg := reachable_simGuard (Reachable.sim s true h)
  exact ⟨_get_version_eq _ hg, get_power_eq _ hg, randomStream_nonneg _,
    randomStream_lt_one _, open_driver_eq _ hg, close_driver_eq _ hg⟩

/-- The session reached by constructing a driver and calling
`simulate_device(True)`. -/
def c7Session : Session :=
  simulate_device (initSession (chars "COM1") 9600 [] (fun _ => 0) true) true

/-- Witness for C7 on a freshly constructed driver with simulation on. -/
theorem claim_C7_witness :
    Reachable (initSession (chars "COM1") 9600 [] (fun _ => 0) true)
    ∧ _get_version c7Session = .ok (chars "Simulation", logCall c7Session "_get_version")
    ∧ 0 ≤ randomStream (c7Session.randVals c7Session.randIx)
    ∧ randomStream (c7Session.randVals c7Session.randIx) < 1
    ∧ open_driver c7Session = .ok ((), c7Session) := by
  have h0 : Reachable (initSession (chars "COM1") 9600 [] (fun _ => 0) true) :=
    Reachable.init _ _ _ _ _
  have main := claim_C7_simulation_mode _ h0
  exact ⟨h0, main.1, main.2.2.1, main.2.2.2.1, main.2.2.2.2.1⟩

/-- **C8**: `get_infos` issues the version, head-info, instrument-info and
unit queries in that fixed order (visible in the call trace), resolves the
unit through `NovaUnits.UNIT_SETUP`, and returns the four-field dictionary;
on every reachable session the unit is `"Simulation"` and resolves to
`"Simulation"`.  Generally, whatever the four queries return, a unit value
present in the table yields the fully populated dictionary and a unit value
absent from the table makes the whole aggregate fail with `KeyError` — no
partial dictionary is ever returned. -/
theorem claim_C8_get_infos_aggregate :
    (∀ s : Session, Reachable s →
      get_infos s = .ok
        ([ (chars "ROM Version", chars "Simulation"), (chars "Head Info", chars "Simulation"),
           (chars "Instrument Info", chars "Simulation"), (chars "Unit", chars "Simulation") ],
         { s with calls := s.calls ++ [chars "_get_version", chars "_get_head_info",
                                       chars "_get_instrument_info", chars "_get_unit"] }))
    ∧ (∀ (s s1 s2 s3 s4 : Session) (v hi ii u : PyStr),
        _get_version s = .ok (v, s1) →
        _get_head_info s1 = .ok (hi, s2) →
        _get_instrument_info s2 = .ok (ii, s3) →
        _get_unit s3 = .ok (u, s4) →
        (∀ un, NovaUnits.UNIT_SETUP.lookup u = some un →
          get_infos s = .ok
            ([ (chars "ROM Version", v), (chars "Head Info", hi),
               (chars "Instrument Info", ii), (chars "Unit", un) ], s4))
        ∧ (NovaUnits.UNIT_SETUP.lookup u = none →
            get_infos s = .error (.keyError u))) := by
  constructor
  · intro s h
    exact get_infos_eq s (reachable_simGuard h)
  · intro s s1 s2 s3 s4 v hi ii u h1 h2 h3 h4
    constructor
    · intro un hun
      simp [get_infos, Bind.bind, Except.bind, h1, h2, h3, h4, dictGetItem, hun]
    · intro hun
      simp [get_infos, Bind.bind, Except.bind, h1, h2, h3, h4, dictGetItem, hun]

/-- A session whose instance `__dict__` was given a falsy `simulate_device`
attribute and a live connection, so the non-simulated query path runs against
a transport scripted to answer the four info queries, the last with the
unmapped unit code `"Q"`.  (Not reachable through the API — the API can never
turn the guard off — but a legitimate input of the transition functions.) -/
def c8Session : Session :=
  { attrs := setattr (setattr (initAttrs (chars "COM1") 9600)
      (chars "simulate_device") (.vBool false)) (chars "connection") (.vObj (chars "Serial")),
    script := [chars "*V\r\n", chars "*H\r\n", chars "*I\r\n", chars "*Q\r\n"],
    events := [], randIx := 0, randVals := fun _ => 0, portOk := true, calls := [] }

/-- `c8Session` after `_get_version`. -/
def c8s1 : Session :=
  { c8Session with
      script := [chars "*H\r\n", chars "*I\r\n", chars "*Q\r\n"],
      events := [.write (chars "$VE\r\n"), .drain (chars "*V\r\n")],
      calls := [chars "_get_version"] }

/-- `c8s1` after `_get_head_info`. -/
def c8s2 : Session :=
  { c8Session with
      script := [chars "*I\r\n", chars "*Q\r\n"],
      events := [.write (chars "$VE\r\n"), .drain (chars "*V\r\n"),
                 .write (chars "$HI\r\n"), .drain (chars "*H\r\n")],
      calls := [chars "_get_version", chars "_get_head_info"] }

/-- `c8s2` after `_get_instrument_info`. -/
def c8s3 : Session :=
  { c8Session with
      script := [chars "*Q\r\n"],
      events := [.write (chars "$VE\r\n"), .drain (chars "*V\r\n"),
                 .write (chars "$HI\r\n"), .drain (chars "*H\r\n"),
                 .write (chars "$II\r\n"), .drain (chars "*I\r\n")],
      calls := [chars "_get_version", chars "_get_head_info", chars "_get_instrument_info"] }

/-- `c8s3` after `_get_unit`. -/
def c8s4 : Session :=
  { c8Session with
      script := [],
      events := [.write (chars "$VE\r\n"), .drain (chars "*V\r\n"),
                 .write (chars "$HI\r\n"), .drain (chars "*H\r\n"),
                 .write (chars "$II\r\n"), .drain (chars "*I\r\n"),
                 .write (chars "$SI\r\n"), .drain (chars "*Q\r\n")],
      calls := [chars "_get_version", chars "_get_head_info", chars "_get_instrument_info",
                chars "_get_unit"] }

/-- Witness for C8: the simulated aggregate on a fresh driver, and the
`KeyError` failure of the whole aggregate on the unmapped unit code `"Q"`. -/
theorem claim_C8_witness :
    Reachable (initSession (chars "COM1") 9600 [] (fun _ => 0) true)
    ∧ get_infos (initSession (chars "COM1") 9600 [] (fun _ => 0) true) = .ok
        ([ (chars "ROM Version", chars "Simulation"), (chars "Head Info", chars "Simulation"),
           (chars "Instrument Info", chars "Simulation"), (chars "Unit", chars "Simulation") ],
         { initSession (chars "COM1") 9600 [] (fun _ => 0) true with
             calls := [chars "_get_version", chars "_get_head_info",
                       chars "_get_instrument_info", chars "_get_unit"] })
    ∧ NovaUnits.UNIT_SETUP.lookup (chars "Q") = none
    ∧ get_infos c8Session = .error (.keyError (chars "Q")) := by
  have h0 : Reachable (initSession (chars "COM1") 9600 [] (fun _ => 0) true) :=
    Reachable.init _ _ _ _ _
  refine ⟨h0, claim_C8_get_infos_aggregate.1 _ h0, by decide, ?_⟩
  exact (claim_C8_get_infos_aggregate.2 c8Session c8s1 c8s2 c8s3 c8s4
    (chars "V") (chars "H") (chars "I") (chars "Q") rfl rfl rfl rfl).2 (by decide)

/-- A driver constructed with defaults, told `simulate_device(False)`, against
a transport scripted to answer the power query with `"*1.23E+01\r\n"`. -/
def c1Session : Session :=
  simulate_device (initSession (chars "COM1") 9600 [chars "*1.23E+01\r\n"] (fun _ => 0) true)
    false

/-- **C1**: with simulation "disabled" via `simulate_device(False)` and the
transport scripted to reply `"*1.23E+01\r\n"`, `get_power()` still takes the
simulation branch — the guard reads the always-truthy bound method — and
returns a random-stream value, leaving the transport untouched (no events,
script unconsumed).  The response pipeline itself, had it run, would strip
the marker and CRLF to `"1.23E+01"` and `float()` would parse it to 12.3,
which is exactly what the claim expects of the transport path. -/
theorem claim_C1_power_query_bypassed :
    simGuard c1Session = true
    ∧ get_power c1Session
        = .ok (randomStream 0, { c1Session with calls := [chars "get_power"], randIx := 1 })
    ∧ c1Session.events = []
    ∧ ({ c1Session with calls := [chars "get_power"], randIx := 1 }).events = []
    ∧ ({ c1Session with calls := [chars "get_power"], randIx := 1 }).script
        = [chars "*1.23E+01\r\n"]
    ∧ receive_classify (chars "*1.23E+01\r\n") = .ok (chars "1.23E+01")
    ∧ pyFloat (chars "1.23E+01") = some (123 / 10 : ℚ)
    ∧ _format_numeric_value (chars "1.23E+01") = .ok (123 / 10 : ℚ) := by
  have hp : pyFloat (chars "1.23E+01") = some ((123 : ℚ) / 100 * 10 ^ (1 : ℕ)) := rfl
  have hp' : pyFloat (chars "1.23E+01") = some ((123 : ℚ) / 10) := by
    rw [hp]
    norm_num
  refine ⟨rfl, rfl, rfl, rfl, rfl, by decide, hp', ?_⟩
  simp [_format_numeric_value, hp']

/-- A driver constructed with defaults, told `simulate_device(False)`, against
a transport scripted to reply `"?HEAD NOT CONNECTED\r\n"`. -/
def c3Session : Session :=
  simulate_device
    (initSession (chars "COM1") 9600 [chars "?HEAD NOT CONNECTED\r\n"] (fun _ => 0) true)
    false

/-- **C3**: the `"?HEAD NOT CONNECTED"` device error is never surfaced as a
typed failure carrying its description.  First, with `simulate_device(False)`
the query still takes the simulation branch and *succeeds* with
`"Simulation"`, transport untouched.  Second, had the transport path run, the
receive pipeline looks the *unstripped* token `"?HEAD NOT CONNECTED\r\n"` up
in `Error.ERROR_MESSAGES` (CRLF removal at src line 103 happens only after
classification) and raises `KeyError`.  Third, even on a CRLF-less token the
classifier *returns* the description as an ordinary success value rather than
raising a typed failure. -/
theorem claim_C3_device_error_not_surfaced :
    simGuard c3Session = true
    ∧ _get_version c3Session = .ok (chars "Simulation", logCall c3Session "_get_version")
    ∧ (logCall c3Session "_get_version").events = []
    ∧ (logCall c3Session "_get_version").script = [chars "?HEAD NOT CONNECTED\r\n"]
    ∧ receive_classify (chars "?HEAD NOT CONNECTED\r\n")
        = .error (.keyError (chars "?HEAD NOT CONNECTED\r\n"))
    ∧ _extract_received_data (chars "?HEAD NOT CONNECTED")
        = .ok (chars "head is not connected to device") :=
  ⟨rfl, rfl, rfl, rfl, by decide, by decide⟩
